import Mathlib

/-
Shallow embedding of the branching life-trajectory simulation
(src/world_state.py, src/config_models.py, src/events.py, src/simulation.py).

Python floats are modelled as exact rationals (ℚ); every numeric literal of
the source is carried over verbatim as a rational literal.  Python's open
`metadata` dict is modelled as a record of the keys the simulation actually
reads and writes.  Stateful allocator objects are modelled by explicit state
passing.

Note on `id` / `highlight`: the dataclass in src/world_state.py declares
neither field, yet every constructor call and field access in
src/simulation.py and src/main.py uses both.  The embedding of the world
record follows the callers (simulation.py); the discrepancy itself is
recorded by the field-name lists `worldStateDataclassFields` and
`createInitialWorldKwargFields` below.
-/

/-- One entry of the `loan_history` list kept in world metadata.
`apply_take_loan` appends entries with the keys layer/base_amount/
effective_amount/tag; the `get_loan` handler appends entries with the keys
event/base_amount/effective_amount/tag.  The record unions both shapes with
optional fields. -/
structure LoanEntry where
  layer : Option Int := none
  event_key : Option String := none
  base_amount : ℚ := 0
  effective_amount : ℚ := 0
  tag : Option String := none
deriving DecidableEq, Repr

/-- The world `metadata` dict, modelled as a record of every key the
simulation core reads or writes.  `Option` fields model keys that may be
absent (`dict.get` returning `None`); `Bool` fields model flag keys read
with `dict.get(key, False)` / truthiness. -/
structure Metadata where
  monthly_payment_override : Option ℚ := none
  world_status : Option String := none
  event_history : List (String × Int) := []
  has_insurance : Bool := false
  has_disability_insurance : Bool := false
  second_car : Bool := false
  renovated_house : Bool := false
  employment : Option String := none
  recent_vacation : Bool := false
  invested_in_stock : Bool := false
  unexpected_expense : Option ℚ := none
  natural_disaster : Bool := false
  extra_payment : Option ℚ := none
  career_change : Bool := false
  house_damage_minor : Option ℚ := none
  house_damage_major : Option ℚ := none
  car_breakdown : Option ℚ := none
  loan_history : List LoanEntry := []
deriving DecidableEq, Repr

/-- A single world of the branching simulation (`WorldState` as used by
src/simulation.py; see the file header about `id`/`highlight`). -/
structure WorldState where
  id : Int
  name : String
  current_income : ℚ
  current_loan : ℚ
  stock_value : ℚ
  cash : ℚ
  family_status : String
  children : Int
  health_status : String
  career_length : Int
  property_type : String
  property_rooms : Int
  property_price : ℚ
  highlight : Bool := false
  bankrupt : Bool := false
  metadata : Metadata := {}
  trajectory_events : List String := []
deriving DecidableEq, Repr

/-- Global configuration (src/config_models.py `GlobalConfig`); of the open
`extras` dict only the key `monthly_loan_payment` is ever read by the core,
always via `extras.get("monthly_loan_payment", 0.0)`. -/
structure GlobalConfig where
  mortgage_rate : ℚ
  interest_rate : ℚ
  risk_factor : ℚ
  monthly_loan_payment : Option ℚ := none
deriving DecidableEq, Repr

/-- User configuration (src/config_models.py `UserConfig`); the probability
model only reads `age`, handlers read nothing from it, and the `extras` keys
are only consumed by world initialization. -/
structure UserConfig where
  income : ℚ
  age : Int
  education : Option String := none
deriving DecidableEq, Repr

/-- The curated world-name list `DEFAULT_WORLD_NAMES` of src/simulation.py,
verbatim and in source order. -/
def DEFAULT_WORLD_NAMES : List String :=
  ["Alice", "Bob", "Charlie", "Diana", "Ethan", "Fiona", "George", "Hannah",
   "Ian", "Julia", "Kevin", "Laura", "Michael", "Nina", "Oscar", "Paula",
   "Quentin", "Rachel", "Sam", "Tina", "Umar", "Vera", "Walter", "Xenia",
   "Yannis", "Zara", "Aaron", "Beatrice", "Caleb", "Delia", "Eli", "Freya",
   "Gavin", "Helena", "Iris", "Jonas", "Kara", "Liam", "Mira", "Noah",
   "Olivia", "Peter", "Rita", "Simon", "Tara", "Ulysses", "Valerie",
   "Wesley", "Xander", "Yara", "Zane", "Adele", "Boris", "Celine", "Derek",
   "Elaine", "Felix", "Greta", "Harvey", "Isabel", "Jasper", "Kelsey",
   "Leon", "Marina", "Nikolai", "Ophelia", "Paolo", "Queenie", "Rafael",
   "Sienna", "Theo", "Uma", "Viktor", "Wendy", "Ximena", "Yuri", "Zoey",
   "Alfred", "Bella", "Cedric", "Daisy", "Edgar", "Flora", "Gordon",
   "Hazel", "Ismael", "Joy", "Kai", "Lara", "Marcus", "Noelle", "Orion",
   "Penelope", "Quincy", "Roxanne", "Sebastian", "Thalia", "Ulrich",
   "Violet", "Wyatt", "Xavier", "Yasmine", "Zoltan", "Abigail", "Bruno",
   "Clara", "Damian", "Evelyn", "Frederick", "Georgia", "Hector", "Ingrid",
   "Jade", "Kurt", "Leona", "Mason", "Nadia", "Owen", "Phoebe", "Quinn",
   "Rosalind", "Stefan", "Tobias", "Ursula", "Vance", "Whitney", "Xyla",
   "Yakov", "Ziva", "Aiden", "Bianca", "Carter", "Dahlia", "Emil", "Farah",
   "Gideon", "Holly", "Irene", "Julius", "Keira", "Lorenzo", "Maddie",
   "Nolan", "Oriana", "Pierce", "Renee", "Silas", "Tessa", "Uliana", "Vera",
   "Warren", "Xoel", "Yvette", "Zarek", "Adrian", "Brielle", "Cyrus",
   "Daria", "Eamon", "Felicity", "Graham", "Helga", "Isaias", "Janelle",
   "Kian", "Lydia", "Malcolm", "Nora", "Otto", "Priscilla", "Ronan",
   "Sabrina", "Terrence", "Usha", "Vladimir", "Willa", "Xandra", "Yosef",
   "Zelda", "Ari", "Bridget", "Caden", "Delilah", "Emilia", "Floyd",
   "Gemma", "Huxley", "Imogen", "Jace", "Kira", "Lucian", "Maeve", "Nelson",
   "Orla", "Paxton", "Rhea", "Shawn", "Talia", "Umarion", "Vesper"]

/-- The `NameAllocator` of src/simulation.py: a curated name list plus a
monotone counter. -/
structure NameAllocator where
  names : List String := DEFAULT_WORLD_NAMES
  counter : ℕ := 0
deriving DecidableEq, Repr

/-- `NameAllocator.next_name`: the counter-th curated name while the list
lasts, then the fallback `World_<counter+1>`; the counter always advances. -/
def NameAllocator.next_name (a : NameAllocator) : String × NameAllocator :=
  ( if a.counter < a.names.length then a.names.getD a.counter ""
    else "World_" ++ toString (a.counter + 1),
    { a with counter := a.counter + 1 } )

/-- The name returned by the (k+1)-st `next_name` call on allocator `a`. -/
def nthName (a : NameAllocator) : ℕ → String
  | 0 => (a.next_name).1
  | n + 1 => nthName (a.next_name).2 n

/-- The `IdAllocator` of src/simulation.py: a bare integer counter. -/
structure IdAllocator where
  counter : Int := 0
deriving DecidableEq, Repr

/-- `IdAllocator.next_id` returns the current counter and advances it. -/
def IdAllocator.next_id (a : IdAllocator) : Int × IdAllocator :=
  (a.counter, { counter := a.counter + 1 })

/-- `IdAllocator.reset`: rewind the counter to a specific starting point. -/
def IdAllocator.reset (_ : IdAllocator) (start : Int) : IdAllocator :=
  { counter := start }

/-- `IdAllocator.ensure_at_least`: bump the counter forward without
rewinding it. -/
def IdAllocator.ensure_at_least (a : IdAllocator) (start : Int) : IdAllocator :=
  if start > a.counter then { counter := start } else a

/-- One operation performed on an `IdAllocator` during a run. -/
inductive AllocOp where
  | nextId : AllocOp
  | ensureAtLeast : Int → AllocOp
  | resetTo : Int → AllocOp
deriving DecidableEq, Repr

/-- Run a sequence of allocator operations, collecting (in order) every id
issued by a `next_id` call. -/
def runAlloc : IdAllocator → List AllocOp → IdAllocator × List Int
  | a, [] => (a, [])
  | a, AllocOp.nextId :: ops =>
      let r := a.next_id
      let rest := runAlloc r.2 ops
      (rest.1, r.1 :: rest.2)
  | a, AllocOp.ensureAtLeast n :: ops => runAlloc (a.ensure_at_least n) ops
  | a, AllocOp.resetTo n :: ops => runAlloc (a.reset n) ops

/-- Whether an operation sequence contains a `reset` call. -/
def hasReset (ops : List AllocOp) : Bool :=
  ops.any fun op => match op with
    | AllocOp.resetTo _ => true
    | _ => false

/-- The field names declared by the `WorldState` dataclass in
src/world_state.py, in declaration order. -/
def worldStateDataclassFields : List String :=
  ["name", "current_income", "current_loan", "stock_value", "cash",
   "family_status", "children", "health_status", "career_length",
   "property_type", "property_rooms", "property_price", "bankrupt",
   "metadata", "trajectory_events"]

/-- The keyword arguments `create_initial_world` (src/simulation.py) passes
to the `WorldState(...)` constructor, in call order. -/
def createInitialWorldKwargFields : List String :=
  ["id", "name", "current_income", "current_loan", "stock_value", "cash",
   "family_status", "children", "health_status", "career_length",
   "property_type", "property_rooms", "property_price", "highlight",
   "metadata", "trajectory_events"]

/-- The names of the event registry of src/events.py, one constructor per
`EVENT_REGISTRY` key, in source order. -/
inductive EName where
  | nothing | marry | divorce | income_increase | promotion | bonus
  | income_decrease | kid | have_first_child | have_second_child
  | have_third_child | sickness | disability | layoff | new_job
  | go_on_vacation | buy_insurance | buy_disability_insurance
  | invest_in_stock | unexpected_expense | natural_disaster | death
  | stock_market_increase | stock_market_crash | get_loan | inheritance
  | house_damage_minor | house_damage_major | car_breakdown
  | make_extra_payment | increase_payment_rate | decrease_payment_rate
  | buy_second_car | renovate_house | change_career
deriving DecidableEq, Repr

/-- The registry key / `Event.name` string of each event. -/
def EName.pyname : EName → String
  | .nothing => "nothing"
  | .marry => "marry"
  | .divorce => "divorce"
  | .income_increase => "income_increase"
  | .promotion => "promotion"
  | .bonus => "bonus"
  | .income_decrease => "income_decrease"
  | .kid => "kid"
  | .have_first_child => "have_first_child"
  | .have_second_child => "have_second_child"
  | .have_third_child => "have_third_child"
  | .sickness => "sickness"
  | .disability => "disability"
  | .layoff => "layoff"
  | .new_job => "new_job"
  | .go_on_vacation => "go_on_vacation"
  | .buy_insurance => "buy_insurance"
  | .buy_disability_insurance => "buy_disability_insurance"
  | .invest_in_stock => "invest_in_stock"
  | .unexpected_expense => "unexpected_expense"
  | .natural_disaster => "natural_disaster"
  | .death => "death"
  | .stock_market_increase => "stock_market_increase"
  | .stock_market_crash => "stock_market_crash"
  | .get_loan => "get_loan"
  | .inheritance => "inheritance"
  | .house_damage_minor => "house_damage_minor"
  | .house_damage_major => "house_damage_major"
  | .car_breakdown => "car_breakdown"
  | .make_extra_payment => "make_extra_payment"
  | .increase_payment_rate => "increase_payment_rate"
  | .decrease_payment_rate => "decrease_payment_rate"
  | .buy_second_car => "buy_second_car"
  | .renovate_house => "renovate_house"
  | .change_career => "change_career"

/-- The `is_choice` flag of each registry entry (src/events.py
`EVENT_REGISTRY`). -/
def EName.is_choice : EName → Bool
  | .marry | .kid | .have_first_child | .have_second_child
  | .have_third_child | .go_on_vacation | .buy_insurance
  | .buy_disability_insurance | .invest_in_stock | .make_extra_payment
  | .increase_payment_rate | .decrease_payment_rate | .buy_second_car
  | .renovate_house | .change_career => true
  | _ => false

/-- The registry as a list (all events, in source insertion order). -/
def EVENT_REGISTRY : List EName :=
  [.nothing, .marry, .divorce, .income_increase, .promotion, .bonus,
   .income_decrease, .kid, .have_first_child, .have_second_child,
   .have_third_child, .sickness, .disability, .layoff, .new_job,
   .go_on_vacation, .buy_insurance, .buy_disability_insurance,
   .invest_in_stock, .unexpected_expense, .natural_disaster, .death,
   .stock_market_increase, .stock_market_crash, .get_loan, .inheritance,
   .house_damage_minor, .house_damage_major, .car_breakdown,
   .make_extra_payment, .increase_payment_rate, .decrease_payment_rate,
   .buy_second_car, .renovate_house, .change_career]

/-- `BASE_EVENT_PROBABILITIES` of src/events.py: the per-event prior, absent
for events not listed in the dict; `event_probability` reads it with
`.get(event.name, 0.3)`. -/
def BASE_EVENT_PROBABILITIES : EName → Option ℚ
  | .marry => some 0.12
  | .divorce => some 0.05
  | .have_first_child => some 0.12
  | .have_second_child => some 0.10
  | .have_third_child => some 0.06
  | .kid => some 0.08
  | .go_on_vacation => some 0.20
  | .get_loan => some 0.10
  | .invest_in_stock => some 0.18
  | .make_extra_payment => some 0.10
  | .increase_payment_rate => some 0.08
  | .decrease_payment_rate => some 0.05
  | .buy_disability_insurance => some 0.10
  | .buy_insurance => some 0.08
  | .buy_second_car => some 0.05
  | .renovate_house => some 0.05
  | .sickness => some 0.06
  | .disability => some 0.02
  | .death => some 0.005
  | _ => none

/-- `_clamp_probability`: keep probability values in the [0, 1] range. -/
def clampProbability (value : ℚ) : ℚ :=
  max 0 (min 1 value)

/-- `_age_at_layer`: approximate age in years, one layer per month; a
missing layer index counts as zero months. -/
def ageAtLayer (user_cfg : UserConfig) (layer_idx : Option Int) : ℚ :=
  let months : Int := layer_idx.getD 0
  (user_cfg.age : ℚ) + (months : ℚ) / 12

/-- `_months_since`: months since an event last happened for this world,
derived from the `event_history` metadata map; `None` when no layer index is
given or the event never happened. -/
def monthsSince (world : WorldState) (event_name : String)
    (layer_idx : Option Int) : Option Int :=
  match layer_idx with
  | none => none
  | some l =>
    match (world.metadata.event_history.lookup event_name) with
    | none => none
    | some last_layer => some (l - last_layer)

/-- `_latest_child_layer`: the most recent child-related event layer,
reconstructed from `_months_since` for the four child event names. -/
def latestChildLayer (world : WorldState) (layer_idx : Option Int) :
    Option Int :=
  let child_events : List String :=
    ["kid", "have_first_child", "have_second_child", "have_third_child"]
  let layers : List Int := child_events.filterMap fun evt =>
    match monthsSince world evt layer_idx, layer_idx with
    | some months, some l => some (l - months)
    | _, _ => none
  match layers with
  | [] => none
  | x :: xs => some (xs.foldl max x)

/-- `_is_event_feasible` of src/events.py: whether an event can sensibly
happen in the given world. -/
def isEventFeasible (e : EName) (world : WorldState)
    (layer_idx : Option Int) : Bool :=
  if world.health_status = "deceased" ∨
      world.metadata.world_status = some "terminated" then false
  else
    match e with
    | .death => world.health_status ≠ "deceased"
    | .marry => world.family_status ≠ "married"
    | .divorce => world.family_status = "married"
    | .have_first_child => world.children = 0
    | .have_second_child => world.children ≥ 1 ∧ world.children < 2
    | .have_third_child => world.children ≥ 2 ∧ world.children < 3
    | .kid => world.children < 4
    | .stock_market_increase => world.stock_value > 0
    | .stock_market_crash => world.stock_value > 0
    | .make_extra_payment => world.current_loan > 0
    | .increase_payment_rate => world.current_loan > 0
    | .decrease_payment_rate => world.current_loan > 0
    | .get_loan => world.property_price ≤ 0
    | .go_on_vacation =>
        match monthsSince world "go_on_vacation" layer_idx with
        | none => true
        | some m => m ≥ 12
    | .buy_disability_insurance => ¬ world.metadata.has_disability_insurance
    | .buy_insurance => ¬ world.metadata.has_insurance
    | .buy_second_car => ¬ world.metadata.second_car
    | .renovate_house =>
        world.property_price > 0 ∧ ¬ world.metadata.renovated_house
    | _ => true

/-- `event_probability` of src/events.py: feasibility gate, per-event base
rate, life-stage adjustment, risk modifier, clamp. -/
def eventProbability (e : EName) (world : WorldState)
    (global_cfg : GlobalConfig) (user_cfg : UserConfig)
    (layer_idx : Option Int := none) : ℚ :=
  if ¬ isEventFeasible e world layer_idx then 0
  else
    let age := ageAtLayer user_cfg layer_idx
    let base0 := (BASE_EVENT_PROBABILITIES e).getD 0.3
    let adjusted : Option ℚ :=
      match e with
      | .marry =>
          if world.family_status = "single" then
            some (if 24 ≤ age ∧ age ≤ 38 then 0.25 else 0.08)
          else if world.family_status = "divorced" then
            some (if age < 55 then 0.12 else 0.03)
          else some base0
      | .divorce =>
          some (if world.family_status = "married" then 0.08 else 0.0)
      | .have_first_child =>
          let b : ℚ := if 24 ≤ age ∧ age ≤ 38 then 0.20 else 0.05
          match latestChildLayer world layer_idx, layer_idx with
          | some last, some l => if l - last < 10 then none else some b
          | _, _ => some b
      | .have_second_child =>
          let b : ℚ := if 26 ≤ age ∧ age ≤ 40 then 0.18 else 0.04
          match latestChildLayer world layer_idx, layer_idx with
          | some last, some l => if l - last < 10 then none else some b
          | _, _ => some b
      | .have_third_child =>
          let b : ℚ := if 28 ≤ age ∧ age ≤ 42 then 0.10 else 0.02
          match latestChildLayer world layer_idx, layer_idx with
          | some last, some l => if l - last < 12 then none else some b
          | _, _ => some b
      | .kid => some (if world.children < 3 then 0.10 else 0.03)
      | .go_on_vacation =>
          let b : ℚ :=
            if world.cash > 3000 then 0.25
            else if world.cash > 1000 then 0.12 else 0.02
          match monthsSince world "go_on_vacation" layer_idx with
          | some m => if m < 12 then none else some b
          | none => some b
      | .get_loan =>
          let affordability : ℚ :=
            if world.current_income > 3000 then 1.0 else 0.6
          some (0.10 * affordability)
      | .make_extra_payment =>
          some (if world.cash > 8000 then 0.15 else 0.08)
      | .increase_payment_rate =>
          some (if world.cash > 8000 then 0.15 else 0.08)
      | .decrease_payment_rate =>
          some (if world.cash < 1000 then 0.10 else 0.04)
      | .invest_in_stock =>
          some (if world.cash > 2000 then 0.20 else 0.05)
      | .buy_disability_insurance =>
          some (if ¬ world.metadata.has_disability_insurance then 0.15
                else 0.0)
      | .buy_insurance =>
          some (if ¬ world.metadata.has_insurance then 0.12 else 0.0)
      | .buy_second_car =>
          some (if world.cash > 10000 then 0.06 else 0.02)
      | .renovate_house =>
          some (if world.cash > 20000 then 0.08 else 0.02)
      | .sickness =>
          some (if world.health_status = "healthy" then 0.06 else 0.02)
      | .disability =>
          some (if world.health_status ≠ "disabled" then 0.03 else 0.0)
      | .death =>
          some (if age > 70 then 0.01 else if age > 50 then 0.002 else base0)
      | _ => some base0
    match adjusted with
    | none => 0
    | some base =>
      let risk_modifier := 1 + global_cfg.risk_factor * 0.1
      clampProbability (base * risk_modifier)

/-- `_with_history` of src/events.py restricted to the trajectory append:
each handler's further field overrides are applied on top of this record. -/
def withHistory (world : WorldState) (event_name : String) : WorldState :=
  { world with trajectory_events := world.trajectory_events ++ [event_name] }

/-- The handler table of src/events.py (`EVENT_REGISTRY` values), one match
arm per handler, numeric literals verbatim.  `udraw` models the ambient
`random.uniform(0.10, 0.20)` draw consumed only by the `promotion`
handler. -/
def applyEvent (e : EName) (udraw : ℚ) (world : WorldState)
    (global_cfg : GlobalConfig) (_user_cfg : UserConfig) : WorldState :=
  match e with
  | .nothing => withHistory world "nothing"
  | .marry =>
      if world.family_status ≠ "married" then
        { withHistory world "marry" with family_status := "married" }
      else withHistory world "marry_no_change"
  | .divorce =>
      if world.family_status = "married" then
        { withHistory world "divorce" with family_status := "divorced" }
      else withHistory world "divorce_no_change"
  | .income_increase =>
      { withHistory world "income_increase" with
        current_income := world.current_income * 1.10 }
  | .income_decrease =>
      { withHistory world "income_decrease" with
        current_income := world.current_income * 0.90 }
  | .kid =>
      { withHistory world "kid" with children := world.children + 1 }
  | .sickness =>
      { withHistory world "sickness" with
        health_status := "sick",
        current_income := world.current_income * 0.85 }
  | .layoff =>
      { withHistory world "layoff" with
        current_income := world.current_income * 0.50,
        metadata := { world.metadata with employment := some "unemployed" } }
  | .new_job =>
      { withHistory world "new_job" with
        current_income := world.current_income * 1.20,
        metadata := { world.metadata with employment := some "employed" } }
  | .go_on_vacation =>
      { withHistory world "go_on_vacation" with
        current_income := world.current_income * 0.95,
        cash := max 0 (world.cash - 2000),
        metadata := { world.metadata with recent_vacation := true } }
  | .buy_insurance =>
      { withHistory world "buy_insurance" with
        cash := max 0 (world.cash - 500),
        metadata := { world.metadata with has_insurance := true } }
  | .invest_in_stock =>
      if world.cash ≤ 0 then withHistory world "invest_in_stock_no_cash"
      else
        let investment := world.cash * 0.2
        { withHistory world "invest_in_stock" with
          cash := world.cash - investment,
          stock_value := world.stock_value + investment,
          metadata := { world.metadata with invested_in_stock := true } }
  | .unexpected_expense =>
      let reduction := world.cash * 0.2
      { withHistory world "unexpected_expense" with
        cash := max 0 (world.cash - reduction),
        metadata :=
          { world.metadata with unexpected_expense := some reduction } }
  | .natural_disaster =>
      { withHistory world "natural_disaster" with
        cash := max 0 (world.cash * 0.7),
        current_income := world.current_income * 0.9,
        metadata := { world.metadata with natural_disaster := true } }
  | .death =>
      { withHistory world "death" with
        current_income := 0,
        health_status := "deceased",
        metadata := { world.metadata with world_status := some "terminated" } }
  | .stock_market_increase =>
      if world.stock_value ≤ 0 then
        withHistory world "stock_market_increase_no_position"
      else
        { withHistory world "stock_market_increase" with
          stock_value := world.stock_value + world.stock_value * 0.15 }
  | .stock_market_crash =>
      if world.stock_value ≤ 0 then
        withHistory world "stock_market_crash_no_position"
      else
        { withHistory world "stock_market_crash" with
          stock_value := max 0 (world.stock_value - world.stock_value * 0.3) }
  | .get_loan =>
      if world.property_price > 0 then
        withHistory world "get_loan_skipped_has_property"
      else
        let placeholder_price : ℚ := 400000
        let effective_amount :=
          placeholder_price * (1 + global_cfg.mortgage_rate)
        let monthly_payment := global_cfg.monthly_loan_payment.getD 0
        { withHistory world "get_loan" with
          current_loan := world.current_loan + effective_amount,
          cash := world.cash + effective_amount,
          metadata :=
            { world.metadata with
              monthly_payment_override := some monthly_payment,
              loan_history := world.metadata.loan_history ++
                [{ event_key := some "get_loan",
                   base_amount := placeholder_price,
                   effective_amount := effective_amount,
                   tag := some "get_loan" }] },
          property_type := "house",
          property_rooms := 3,
          property_price := placeholder_price }
  | .promotion =>
      let bump := world.current_income * udraw
      { withHistory world "promotion" with
        current_income := world.current_income + bump }
  | .bonus =>
      { withHistory world "bonus" with
        cash := world.cash + world.current_income }
  | .disability =>
      { withHistory world "disability" with
        health_status := "disabled",
        current_income := world.current_income * 0.5 }
  | .inheritance =>
      { withHistory world "inheritance" with cash := world.cash + 100000 }
  | .house_damage_minor =>
      { withHistory world "house_damage_minor" with
        cash := max 0 (world.cash - 10000),
        metadata :=
          { world.metadata with house_damage_minor := some 10000 } }
  | .house_damage_major =>
      { withHistory world "house_damage_major" with
        cash := max 0 (world.cash - 35000),
        metadata :=
          { world.metadata with house_damage_major := some 35000 } }
  | .car_breakdown =>
      { withHistory world "car_breakdown" with
        cash := max 0 (world.cash - 3000),
        metadata := { world.metadata with car_breakdown := some 3000 } }
  | .have_first_child =>
      if world.children ≥ 1 then withHistory world "have_first_child_skipped"
      else
        { withHistory world "have_first_child" with
          children := world.children + 1 }
  | .have_second_child =>
      if world.children ≥ 2 then
        withHistory world "have_second_child_skipped"
      else
        { withHistory world "have_second_child" with
          children := world.children + 1 }
  | .have_third_child =>
      if world.children ≥ 3 then withHistory world "have_third_child_skipped"
      else
        { withHistory world "have_third_child" with
          children := world.children + 1 }
  | .make_extra_payment =>
      { withHistory world "make_extra_payment" with
        cash := max 0 (world.cash - 5000),
        current_loan := max 0 (world.current_loan - 5000),
        metadata := { world.metadata with extra_payment := some 5000 } }
  | .increase_payment_rate =>
      let base_payment := global_cfg.monthly_loan_payment.getD 0
      let current_override :=
        world.metadata.monthly_payment_override.getD base_payment
      let new_override :=
        if current_override > 0 then max base_payment (current_override * 1.25)
        else base_payment * 1.5
      { withHistory world "increase_payment_rate" with
        metadata :=
          { world.metadata with
            monthly_payment_override := some new_override } }
  | .decrease_payment_rate =>
      let base_payment := global_cfg.monthly_loan_payment.getD 0
      let current_override :=
        world.metadata.monthly_payment_override.getD base_payment
      let new_override := max 0 (current_override * 0.5)
      { withHistory world "decrease_payment_rate" with
        metadata :=
          { world.metadata with
            monthly_payment_override := some new_override } }
  | .buy_disability_insurance =>
      { withHistory world "buy_disability_insurance" with
        cash := max 0 (world.cash - 500),
        metadata :=
          { world.metadata with has_disability_insurance := true } }
  | .buy_second_car =>
      { withHistory world "buy_second_car" with
        cash := max 0 (world.cash - 15000),
        metadata := { world.metadata with second_car := true } }
  | .renovate_house =>
      { withHistory world "renovate_house" with
        cash := max 0 (world.cash - 30000),
        metadata := { world.metadata with renovated_house := true } }
  | .change_career =>
      { withHistory world "change_career" with
        current_income := world.current_income * 0.9,
        metadata := { world.metadata with career_change := true } }

/-- `apply_loan_repayment` of src/simulation.py: the monthly economic step
(income, target and actual payment, loan amortization, bankruptcy flag). -/
def applyLoanRepayment (world : WorldState) (global_cfg : GlobalConfig) :
    WorldState :=
  let monthly_income := world.current_income
  let cash_after_income := world.cash + monthly_income
  let monthly_payment :=
    match world.metadata.monthly_payment_override with
    | some v => v
    | none => global_cfg.monthly_loan_payment.getD 0
  let ten_percent_cash := cash_after_income * 0.10
  let target_payment := max monthly_payment ten_percent_cash
  let actual_payment := min target_payment cash_after_income
  let new_loan :=
    if world.current_loan > 0 then
      world.current_loan - min actual_payment world.current_loan
    else world.current_loan
  let new_cash := cash_after_income - actual_payment
  let went_bankrupt : Bool :=
    decide (actual_payment > cash_after_income - 0.000000001 ∧
      actual_payment < target_payment ∧ new_loan > 0)
  { world with
    current_loan := new_loan,
    cash := new_cash,
    bankrupt := world.bankrupt || went_bankrupt }

/-- `apply_take_loan` of src/simulation.py: attach a loan to the world.
Python's truthiness test `tag or (...)` treats an empty tag string like a
missing one. -/
def applyTakeLoan (world : WorldState) (layer_index : Option Int)
    (global_cfg : GlobalConfig) (amount : ℚ := 200000)
    (monthly_payment : Option ℚ := none) (tag : Option String := none) :
    WorldState :=
  let effective_amount := amount * (1 + global_cfg.mortgage_rate)
  let payment_override :=
    monthly_payment.getD (global_cfg.monthly_loan_payment.getD 0)
  let new_metadata :=
    { world.metadata with
      monthly_payment_override := some payment_override,
      loan_history := world.metadata.loan_history ++
        [{ layer := layer_index, base_amount := amount,
           effective_amount := effective_amount, tag := tag }] }
  let tag_label :=
    match tag with
    | some t =>
        if t ≠ "" then t
        else match layer_index with
             | some i => "take_loan_layer_" ++ toString i
             | none => "take_loan"
    | none =>
        match layer_index with
        | some i => "take_loan_layer_" ++ toString i
        | none => "take_loan"
  { world with
    current_loan := world.current_loan + effective_amount,
    cash := world.cash + effective_amount,
    metadata := new_metadata,
    trajectory_events := world.trajectory_events ++ [tag_label] }

/-- The probability `_branch_worlds_on_event` computes at line 390 of
src/simulation.py: `event_probability` called without a layer index, so the
`layer_idx` parameter stays at its default `None`. -/
def branchProbability (e : EName) (world : WorldState)
    (global_cfg : GlobalConfig) (user_cfg : UserConfig) : ℚ :=
  eventProbability e world global_cfg user_cfg none

/-- The renaming loop of `_branch_worlds_on_event`: every branch after the
first receives a fresh name and id from the allocators, in order. -/
def renameBranches : List WorldState → NameAllocator → IdAllocator →
    List WorldState × NameAllocator × IdAllocator
  | [], na, ia => ([], na, ia)
  | b :: bs, na, ia =>
      let n := na.next_name
      let i := ia.next_id
      let rest := renameBranches bs n.2 i.2
      ({ b with name := n.1, id := i.1 } :: rest.1, rest.2)

/-- `_branch_worlds_on_event` of src/simulation.py.  `coin` models the
`rng.random()` coin-flip draw; `udraw` the `random.uniform` draw inside the
`promotion` handler.  The source raises when branching happens without
allocators; the embedding passes the allocators unconditionally. -/
def branchWorldsOnEvent (world : WorldState) (e : EName)
    (global_cfg : GlobalConfig) (user_cfg : UserConfig) (coin udraw : ℚ)
    (na : NameAllocator) (ia : IdAllocator) :
    List WorldState × NameAllocator × IdAllocator :=
  let probability0 := branchProbability e world global_cfg user_cfg
  let probability :=
    if probability0 ≤ 0 then 0
    else if probability0 ≥ 1 then 1
    else probability0
  let results : List WorldState :=
    if e.is_choice then
      let happens_world := applyEvent e udraw world global_cfg user_cfg
      let not_happens_world :=
        { world with trajectory_events :=
            world.trajectory_events ++ [e.pyname ++ "_not_chosen"] }
      if ¬ world.highlight then
        if probability ≥ 1 ∨ (probability > 0 ∧ coin < probability) then
          [happens_world]
        else [not_happens_world]
      else if probability ≤ 0 then [not_happens_world]
      else if probability ≥ 1 then [happens_world]
      else [happens_world, not_happens_world]
    else
      if probability ≤ 0 then
        [{ world with trajectory_events :=
            world.trajectory_events ++ [e.pyname ++ "_skipped"] }]
      else if probability ≥ 1 ∨ coin < probability then
        [applyEvent e udraw world global_cfg user_cfg]
      else
        [{ world with trajectory_events :=
            world.trajectory_events ++ [e.pyname ++ "_skipped"] }]
  if 1 < results.length then
    match results with
    | [] => ([], na, ia)
    | r0 :: rest =>
        let primary := { r0 with id := world.id }
        let renamed := renameBranches rest na ia
        (primary :: renamed.1, renamed.2)
  else (results, na, ia)

/-- Replace only the `event_history` key of a world's metadata. -/
def setEventHistory (world : WorldState) (hist : List (String × Int)) :
    WorldState :=
  { world with metadata := { world.metadata with event_history := hist } }

/-- Definition following the words of claim C2 / spec section 4.4 for the
economic step, to be compared with `applyLoanRepayment`: the loan is
reduced by `min(actual_payment, current_loan)` unconditionally (no
`current_loan > 0` guard), and bankruptcy has no floating tolerance. -/
def loanRepaymentClaimed (world : WorldState) (global_cfg : GlobalConfig) :
    WorldState :=
  let cash_after_income := world.cash + world.current_income
  let monthly_payment :=
    match world.metadata.monthly_payment_override with
    | some v => v
    | none => global_cfg.monthly_loan_payment.getD 0
  let target_payment := max monthly_payment (0.10 * cash_after_income)
  let actual_payment := min target_payment cash_after_income
  let new_loan :=
    world.current_loan - min actual_payment world.current_loan
  { world with
    current_loan := new_loan,
    cash := cash_after_income - actual_payment,
    bankrupt := world.bankrupt ||
      decide (actual_payment < target_payment ∧ new_loan > 0) }

/-- Sample user configuration used by concrete witnesses. -/
def sampleUserConfig : UserConfig :=
  { income := 5000, age := 30 }

/-- Sample global configuration used by concrete witnesses. -/
def sampleGlobalConfig : GlobalConfig :=
  { mortgage_rate := 0.04, interest_rate := 0.01, risk_factor := 0 }

/-- Sample healthy single world used by concrete witnesses. -/
def sampleWorld : WorldState :=
  { id := 0, name := "Alice", current_income := 5000, current_loan := 0,
    stock_value := 0, cash := 0, family_status := "single", children := 0,
    health_status := "healthy", career_length := 12,
    property_type := "apartment", property_rooms := 0, property_price := 0,
    highlight := true }

/-- A default `NameAllocator` (curated list, counter 0). -/
def defaultNameAllocator : NameAllocator := {}

/-- Along a reset-free operation sequence the counter never decreases and
every issued id lies between the starting counter (inclusive) and the final
counter (exclusive). -/
theorem runAlloc_bounds (ops : List AllocOp) :
    ∀ a : IdAllocator, hasReset ops = false →
      a.counter ≤ (runAlloc a ops).1.counter ∧
      ∀ i ∈ (runAlloc a ops).2,
        a.counter ≤ i ∧ i < (runAlloc a ops).1.counter := by
  induction ops with
  | nil => intro a _; simp [runAlloc]
  | cons op rest ih =>
    intro a hnr
    cases op with
    | nextId =>
      have hnr' : hasReset rest = false := by simpa [hasReset] using hnr
      obtain ⟨h1, h2⟩ := ih ⟨a.counter + 1⟩ hnr'
      simp only [runAlloc, IdAllocator.next_id] at h1 h2 ⊢
      refine ⟨by omega, ?_⟩
      intro i hi
      rcases List.mem_cons.mp hi with hi | hi
      · subst hi; exact ⟨le_refl _, by omega⟩
      · obtain ⟨hl, hr⟩ := h2 i hi
        exact ⟨by omega, hr⟩
    | ensureAtLeast n =>
      have hnr' : hasReset rest = false := by simpa [hasReset] using hnr
      obtain ⟨h1, h2⟩ := ih (a.ensure_at_least n) hnr'
      have hc : a.counter ≤ (a.ensure_at_least n).counter := by
        simp only [IdAllocator.ensure_at_least]
        split
        · show a.counter ≤ n
          omega
        · exact le_refl _
      simp only [runAlloc]
      exact ⟨le_trans hc h1, fun i hi =>
        ⟨le_trans hc (h2 i hi).1, (h2 i hi).2⟩⟩
    | resetTo n => simp [hasReset] at hnr

/-- Along a reset-free operation sequence the issued ids are strictly
increasing. -/
theorem runAlloc_pairwise (ops : List AllocOp) :
    ∀ a : IdAllocator, hasReset ops = false →
      List.Pairwise (· < ·) (runAlloc a ops).2 := by
  induction ops with
  | nil => intro a _; simp [runAlloc]
  | cons op rest ih =>
    intro a hnr
    cases op with
    | nextId =>
      have hnr' : hasReset rest = false := by simpa [hasReset] using hnr
      have hb := runAlloc_bounds rest ⟨a.counter + 1⟩ hnr'
      simp only [runAlloc, IdAllocator.next_id]
      refine List.Pairwise.cons ?_ (ih _ hnr')
      intro i hi
      have hle : a.counter + 1 ≤ i := (hb.2 i hi).1
      omega
    | ensureAtLeast n =>
      have hnr' : hasReset rest = false := by simpa [hasReset] using hnr
      simpa [runAlloc] using ih (a.ensure_at_least n) hnr'
    | resetTo n => simp [hasReset] at hnr

/-- C7: across any reset-free sequence of `IdAllocator` operations the
issued ids are strictly increasing (hence never reused and without
duplicates), and after `ensure_at_least (m + 1)` — as `simulate_layers`
performs with `m` the maximum initial world id — every subsequently issued
id exceeds `m`. -/
theorem id_allocator_never_reuses_ids (a : IdAllocator) (ops : List AllocOp)
    (m : Int) (hnr : hasReset ops = false) :
    List.Pairwise (· < ·) (runAlloc a ops).2 ∧
    (runAlloc a ops).2.Nodup ∧
    ∀ i ∈ (runAlloc (a.ensure_at_least (m + 1)) ops).2, m < i := by
  refine ⟨runAlloc_pairwise ops a hnr, ?_, ?_⟩
  · exact (runAlloc_pairwise ops a hnr).imp fun h => ne_of_lt h
  · intro i hi
    have hb := runAlloc_bounds ops (a.ensure_at_least (m + 1)) hnr
    have h1 := (hb.2 i hi).1
    have h2 : m + 1 ≤ (a.ensure_at_least (m + 1)).counter := by
      simp only [IdAllocator.ensure_at_least]
      split
      · show m + 1 ≤ m + 1
        omega
      · omega
    omega

/-- Witness for C7 at a concrete operation sequence. -/
theorem id_allocator_never_reuses_ids_witness :
    hasReset [AllocOp.nextId, AllocOp.ensureAtLeast 5, AllocOp.nextId]
        = false ∧
    (List.Pairwise (· < ·)
        (runAlloc ⟨0⟩
          [AllocOp.nextId, AllocOp.ensureAtLeast 5, AllocOp.nextId]).2 ∧
      (runAlloc ⟨0⟩
          [AllocOp.nextId, AllocOp.ensureAtLeast 5, AllocOp.nextId]).2.Nodup ∧
      ∀ i ∈ (runAlloc (IdAllocator.ensure_at_least ⟨0⟩ (2 + 1))
          [AllocOp.nextId, AllocOp.ensureAtLeast 5, AllocOp.nextId]).2,
        2 < i) :=
  ⟨by decide,
   id_allocator_never_reuses_ids ⟨0⟩
     [AllocOp.nextId, AllocOp.ensureAtLeast 5, AllocOp.nextId] 2 (by decide)⟩

set_option maxRecDepth 8192 in
/-- C8: the claim that all dispensed display names are distinct fails on
the code: the curated list `DEFAULT_WORLD_NAMES` contains "Vera" twice (at
indices 21 and 149), so the 22nd and the 150th `next_name` call of one run
return the same name. -/
theorem name_allocator_repeats_vera :
    nthName defaultNameAllocator 21 = "Vera" ∧
    nthName defaultNameAllocator 149 = "Vera" ∧ (21 : ℕ) ≠ 149 :=
  ⟨by decide, by decide, by decide⟩

/-- C9: the `WorldState` dataclass of src/world_state.py declares neither
an `id` nor a `highlight` field, although `create_initial_world` passes
both as constructor keyword arguments (so the construction the claim
describes raises `TypeError` in the code as written). -/
theorem world_state_lacks_id_and_highlight :
    "id" ∈ createInitialWorldKwargFields ∧
    "highlight" ∈ createInitialWorldKwargFields ∧
    "id" ∉ worldStateDataclassFields ∧
    "highlight" ∉ worldStateDataclassFields := by decide

/-- A deceased variant of the sample world. -/
def deceasedWorld : WorldState :=
  { sampleWorld with health_status := "deceased" }

/-- C3: for every registry event and any world that is deceased or whose
metadata marks the world terminated, `event_probability` is exactly 0,
regardless of the configs and the layer index. -/
theorem dead_or_terminated_probability_zero (e : EName) (w : WorldState)
    (g : GlobalConfig) (u : UserConfig) (layer : Option Int)
    (_he : e ∈ EVENT_REGISTRY)
    (hw : w.health_status = "deceased" ∨
      w.metadata.world_status = some "terminated") :
    eventProbability e w g u layer = 0 := by
  have hfeas : isEventFeasible e w layer = false := by
    unfold isEventFeasible
    rcases hw with h | h <;> simp [h]
  unfold eventProbability
  simp [hfeas]

/-- Witness for C3 at a concrete event and world. -/
theorem dead_or_terminated_probability_zero_witness :
    EName.nothing ∈ EVENT_REGISTRY ∧
    (deceasedWorld.health_status = "deceased" ∨
      deceasedWorld.metadata.world_status = some "terminated") ∧
    eventProbability EName.nothing deceasedWorld sampleGlobalConfig
      sampleUserConfig none = 0 :=
  ⟨by decide, Or.inl (by decide),
   dead_or_terminated_probability_zero EName.nothing deceasedWorld
     sampleGlobalConfig sampleUserConfig none (by decide)
     (Or.inl (by decide))⟩

/-- C5: injecting a 200000 loan with mortgage rate 0.04 adds exactly
200000 * 1.04 = 208000 to both the outstanding loan and the cash, and the
injection leaves every other financial field of the world unchanged. -/
theorem take_loan_adds_exactly_208000 (w : WorldState) (layer : Option Int)
    (g : GlobalConfig) (mp : Option ℚ) (tag : Option String)
    (hmr : g.mortgage_rate = 0.04) :
    (applyTakeLoan w layer g 200000 mp tag).current_loan
        = w.current_loan + 208000 ∧
    (applyTakeLoan w layer g 200000 mp tag).cash = w.cash + 208000 ∧
    (applyTakeLoan w layer g 200000 mp tag).current_income
        = w.current_income ∧
    (applyTakeLoan w layer g 200000 mp tag).stock_value = w.stock_value ∧
    (applyTakeLoan w layer g 200000 mp tag).property_price
        = w.property_price ∧
    (applyTakeLoan w layer g 200000 mp tag).bankrupt = w.bankrupt := by
  simp [applyTakeLoan, hmr]
  norm_num

/-- Witness for C5 at a concrete world and config. -/
theorem take_loan_adds_exactly_208000_witness :
    sampleGlobalConfig.mortgage_rate = 0.04 ∧
    ((applyTakeLoan sampleWorld (some 0) sampleGlobalConfig 200000 none
        none).current_loan = sampleWorld.current_loan + 208000 ∧
      (applyTakeLoan sampleWorld (some 0) sampleGlobalConfig 200000 none
        none).cash = sampleWorld.cash + 208000 ∧
      (applyTakeLoan sampleWorld (some 0) sampleGlobalConfig 200000 none
        none).current_income = sampleWorld.current_income ∧
      (applyTakeLoan sampleWorld (some 0) sampleGlobalConfig 200000 none
        none).stock_value = sampleWorld.stock_value ∧
      (applyTakeLoan sampleWorld (some 0) sampleGlobalConfig 200000 none
        none).property_price = sampleWorld.property_price ∧
      (applyTakeLoan sampleWorld (some 0) sampleGlobalConfig 200000 none
        none).bankrupt = sampleWorld.bankrupt) :=
  ⟨by norm_num [sampleGlobalConfig],
   take_loan_adds_exactly_208000 sampleWorld (some 0) sampleGlobalConfig
     none none (by norm_num [sampleGlobalConfig])⟩

/-- The target payment of the economic step as the claim words it:
`max(monthly_payment_override or configured default, 0.10 *
cash_after_income)`. -/
def repaymentTarget (w : WorldState) (g : GlobalConfig) : ℚ :=
  max (match w.metadata.monthly_payment_override with
       | some v => v
       | none => g.monthly_loan_payment.getD 0)
    (0.10 * (w.cash + w.current_income))

/-- The actual payment of the economic step as the claim words it:
`min(target_payment, cash_after_income)`. -/
def repaymentActual (w : WorldState) (g : GlobalConfig) : ℚ :=
  min (repaymentTarget w g) (w.cash + w.current_income)

/-- World with zero cash and negative monthly income, used to separate the
code's guarded loan update from the claim's unguarded formula. -/
def negIncomeWorld : WorldState :=
  { sampleWorld with cash := 0, current_income := -1000 }

/-- C2 counterexample: on a world with zero loan and negative
cash-after-income the code leaves `current_loan` at 0, while the claim's
unguarded formula `current_loan - min(actual_payment, current_loan)` would
yield 1000 (the claimed step and the code disagree at this input). -/
theorem loan_repayment_claim_counterexample :
    (applyLoanRepayment negIncomeWorld sampleGlobalConfig).current_loan
        = 0 ∧
    negIncomeWorld.current_loan -
        min (repaymentActual negIncomeWorld sampleGlobalConfig)
          negIncomeWorld.current_loan = 1000 ∧
    (loanRepaymentClaimed negIncomeWorld
        sampleGlobalConfig).current_loan = 1000 := by
  refine ⟨?_, ?_, ?_⟩ <;>
    norm_num [applyLoanRepayment, loanRepaymentClaimed, repaymentActual,
      repaymentTarget, negIncomeWorld, sampleWorld, sampleGlobalConfig,
      min_def, max_def]

/-- If a binary minimum is strictly below its left argument it equals its
right argument. -/
theorem min_lt_left_eq_right {a b : ℚ} (h : min a b < a) : min a b = b := by
  rcases le_total a b with h1 | h1
  · rw [min_eq_left h1] at h
    exact absurd h (lt_irrefl a)
  · exact min_eq_right h1

/-- C2 (amended): the economic step adds one month of income, computes
`target_payment = max(override-or-default, 0.10 * cash_after_income)` and
`actual_payment = min(target_payment, cash_after_income)`, reduces the loan
by `min(actual_payment, current_loan)` when a positive loan is outstanding
(and leaves the loan unchanged otherwise), sets the cash to
`cash_after_income - actual_payment`, and sets the sticky bankrupt flag
exactly when the actual payment falls short of the target while the
remaining loan is still positive. -/
theorem loan_repayment_step_description (w : WorldState) (g : GlobalConfig) :
    (applyLoanRepayment w g).cash
        = (w.cash + w.current_income) - repaymentActual w g ∧
    (applyLoanRepayment w g).current_loan
        = (if 0 < w.current_loan then
            w.current_loan - min (repaymentActual w g) w.current_loan
          else w.current_loan) ∧
    ((applyLoanRepayment w g).bankrupt = true ↔
      (w.bankrupt = true ∨
        (repaymentActual w g < repaymentTarget w g ∧
          0 < (applyLoanRepayment w g).current_loan))) := by
  have htarget : repaymentTarget w g
      = max (match w.metadata.monthly_payment_override with
             | some v => v
             | none => g.monthly_loan_payment.getD 0)
          ((w.cash + w.current_income) * 0.10) := by
    unfold repaymentTarget
    rw [mul_comm]
  have hactual : repaymentActual w g
      = min (max (match w.metadata.monthly_payment_override with
                  | some v => v
                  | none => g.monthly_loan_payment.getD 0)
            ((w.cash + w.current_income) * 0.10))
          (w.cash + w.current_income) := by
    unfold repaymentActual
    rw [htarget]
  refine ⟨?_, ?_, ?_⟩
  · rw [hactual]
    simp [applyLoanRepayment]
  · rw [hactual]
    simp [applyLoanRepayment]
  · rw [hactual, htarget]
    simp only [applyLoanRepayment, Bool.or_eq_true, decide_eq_true_eq]
    constructor
    · rintro (hb | ⟨-, h2, h3⟩)
      · exact Or.inl hb
      · exact Or.inr ⟨h2, h3⟩
    · rintro (hb | ⟨h2, h3⟩)
      · exact Or.inl hb
      · refine Or.inr ⟨?_, h2, h3⟩
        rw [min_lt_left_eq_right h2]
        exact sub_lt_self _ (by norm_num)

/-- C4 counterexample: the `bonus` handler credits one month of income to
the cash without clamping, so on a world with zero cash, zero loan and zero
stock but negative monthly income (no precondition excludes it) the
resulting cash is negative. -/
theorem handler_nonneg_claim_counterexample :
    EName.bonus ∈ EVENT_REGISTRY ∧
    0 ≤ negIncomeWorld.cash ∧ 0 ≤ negIncomeWorld.current_loan ∧
    0 ≤ negIncomeWorld.stock_value ∧
    (applyEvent EName.bonus 0 negIncomeWorld sampleGlobalConfig
      sampleUserConfig).cash < 0 := by
  refine ⟨by decide, ?_, ?_, ?_, ?_⟩ <;>
    norm_num [applyEvent, withHistory, negIncomeWorld, sampleWorld]

/-- C4 (amended): every registry handler preserves nonnegativity of cash,
outstanding loan and stock value on worlds whose cash, loan, stock and
monthly income are all nonnegative, for any global config whose mortgage
rate is at least -1 (`get_loan` credits `400000 * (1 + mortgage_rate)`). -/
theorem handlers_preserve_nonneg (e : EName) (udraw : ℚ) (w : WorldState)
    (g : GlobalConfig) (u : UserConfig) (_he : e ∈ EVENT_REGISTRY)
    (hc : 0 ≤ w.cash) (hl : 0 ≤ w.current_loan) (hs : 0 ≤ w.stock_value)
    (hi : 0 ≤ w.current_income) (hm : -1 ≤ g.mortgage_rate) :
    0 ≤ (applyEvent e udraw w g u).cash ∧
    0 ≤ (applyEvent e udraw w g u).current_loan ∧
    0 ≤ (applyEvent e udraw w g u).stock_value := by
  cases e <;>
    simp only [applyEvent, withHistory] <;>
    (try split_ifs) <;>
    refine ⟨?_, ?_, ?_⟩ <;>
    (try simp) <;>
    first
      | assumption
      | exact le_max_left 0 _
      | linarith

/-- Witness for C4 (amended) at a concrete handler and world. -/
theorem handlers_preserve_nonneg_witness :
    EName.nothing ∈ EVENT_REGISTRY ∧ (0 : ℚ) ≤ sampleWorld.cash ∧
    (0 : ℚ) ≤ sampleWorld.current_loan ∧
    (0 : ℚ) ≤ sampleWorld.stock_value ∧
    (0 : ℚ) ≤ sampleWorld.current_income ∧
    (-1 : ℚ) ≤ sampleGlobalConfig.mortgage_rate ∧
    (0 ≤ (applyEvent EName.nothing 0 sampleWorld sampleGlobalConfig
        sampleUserConfig).cash ∧
      0 ≤ (applyEvent EName.nothing 0 sampleWorld sampleGlobalConfig
        sampleUserConfig).current_loan ∧
      0 ≤ (applyEvent EName.nothing 0 sampleWorld sampleGlobalConfig
        sampleUserConfig).stock_value) :=
  ⟨by decide, by norm_num [sampleWorld], by norm_num [sampleWorld],
   by norm_num [sampleWorld], by norm_num [sampleWorld],
   by norm_num [sampleGlobalConfig],
   handlers_preserve_nonneg EName.nothing 0 sampleWorld sampleGlobalConfig
     sampleUserConfig (by decide) (by norm_num [sampleWorld])
     (by norm_num [sampleWorld]) (by norm_num [sampleWorld])
     (by norm_num [sampleWorld]) (by norm_num [sampleGlobalConfig])⟩

/-- C6: every registry handler appends exactly one token to the
trajectory — the event's canonical name or a variant starting with it —
leaving every earlier entry unchanged. -/
theorem handlers_append_one_token (e : EName) (udraw : ℚ) (w : WorldState)
    (g : GlobalConfig) (u : UserConfig) (_he : e ∈ EVENT_REGISTRY) :
    (applyEvent e udraw w g u).trajectory_events.length
        = w.trajectory_events.length + 1 ∧
    ∃ t, (t = e.pyname ∨ ∃ s, t = e.pyname ++ s) ∧
      (applyEvent e udraw w g u).trajectory_events
        = w.trajectory_events ++ [t] := by
  cases e <;>
    simp only [applyEvent, withHistory, EName.pyname] <;>
    (try split_ifs) <;>
    refine ⟨by simp, ?_⟩ <;>
    first
      | exact ⟨_, Or.inl rfl, rfl⟩
      | exact ⟨_, Or.inr ⟨"_no_change", rfl⟩, rfl⟩
      | exact ⟨_, Or.inr ⟨"_skipped", rfl⟩, rfl⟩
      | exact ⟨_, Or.inr ⟨"_no_cash", rfl⟩, rfl⟩
      | exact ⟨_, Or.inr ⟨"_no_position", rfl⟩, rfl⟩
      | exact ⟨_, Or.inr ⟨"_skipped_has_property", rfl⟩, rfl⟩

/-- Witness for C6 at a concrete handler and world. -/
theorem handlers_append_one_token_witness :
    EName.nothing ∈ EVENT_REGISTRY ∧
    ((applyEvent EName.nothing 0 sampleWorld sampleGlobalConfig
        sampleUserConfig).trajectory_events.length
          = sampleWorld.trajectory_events.length + 1 ∧
      ∃ t, (t = EName.nothing.pyname ∨ ∃ s, t = EName.nothing.pyname ++ s) ∧
        (applyEvent EName.nothing 0 sampleWorld sampleGlobalConfig
          sampleUserConfig).trajectory_events
            = sampleWorld.trajectory_events ++ [t]) :=
  ⟨by decide, handlers_append_one_token EName.nothing 0 sampleWorld
    sampleGlobalConfig sampleUserConfig (by decide)⟩

/-- C1: for a choice event whose probability (computed, as the driver does,
with no layer index) lies strictly between 0 and 1, applied to a
highlighted world, `_branch_worlds_on_event` deterministically produces
exactly two worlds: the first keeps the input world's id, and the second
carries the id the `IdAllocator` freshly dispenses, distinct from every id
previously issued along any reset-free run ending in this allocator
state. -/
theorem branch_highlight_choice_forks (w : WorldState) (e : EName)
    (g : GlobalConfig) (u : UserConfig) (coin udraw : ℚ)
    (na : NameAllocator) (a0 : IdAllocator) (ops : List AllocOp)
    (hchoice : e.is_choice = true) (hhl : w.highlight = true)
    (hp0 : 0 < eventProbability e w g u none)
    (hp1 : eventProbability e w g u none < 1)
    (hnr : hasReset ops = false) :
    ∃ w₁ w₂,
      (branchWorldsOnEvent w e g u coin udraw na (runAlloc a0 ops).1).1
          = [w₁, w₂] ∧
      w₁.id = w.id ∧
      w₂.id = (runAlloc a0 ops).1.counter ∧
      w₂.id ∉ (runAlloc a0 ops).2 := by
  have hP0 : ¬ eventProbability e w g u none ≤ 0 := not_le.mpr hp0
  have hP1 : ¬ eventProbability e w g u none ≥ 1 := not_le.mpr hp1
  have hbr : (branchWorldsOnEvent w e g u coin udraw na
      (runAlloc a0 ops).1).1
      = [{ applyEvent e udraw w g u with id := w.id },
         { w with
           trajectory_events :=
             w.trajectory_events ++ [e.pyname ++ "_not_chosen"],
           name := (na.next_name).1,
           id := (runAlloc a0 ops).1.counter }] := by
    simp [branchWorldsOnEvent, branchProbability, hchoice, hhl, hP0, hP1,
      renameBranches, IdAllocator.next_id, NameAllocator.next_name]
  refine ⟨_, _, hbr, ?_, ?_, ?_⟩
  · simp
  · simp
  · intro hmem
    exact absurd ((runAlloc_bounds ops a0 hnr).2 _ hmem).2 (lt_irrefl _)

/-- Witness for C1: the `marry` choice on the highlighted sample world
(probability 0.25) after one prior `next_id` call. -/
theorem branch_highlight_choice_forks_witness :
    EName.marry.is_choice = true ∧ sampleWorld.highlight = true ∧
    0 < eventProbability EName.marry sampleWorld sampleGlobalConfig
      sampleUserConfig none ∧
    eventProbability EName.marry sampleWorld sampleGlobalConfig
      sampleUserConfig none < 1 ∧
    hasReset [AllocOp.nextId] = false ∧
    (∃ w₁ w₂,
      (branchWorldsOnEvent sampleWorld EName.marry sampleGlobalConfig
          sampleUserConfig 0 0 defaultNameAllocator
          (runAlloc ⟨0⟩ [AllocOp.nextId]).1).1 = [w₁, w₂] ∧
      w₁.id = sampleWorld.id ∧
      w₂.id = (runAlloc ⟨0⟩ [AllocOp.nextId]).1.counter ∧
      w₂.id ∉ (runAlloc ⟨0⟩ [AllocOp.nextId]).2) := by
  have hpv : eventProbability EName.marry sampleWorld sampleGlobalConfig
      sampleUserConfig none = 0.25 := by
    norm_num [eventProbability, isEventFeasible, ageAtLayer, monthsSince,
      clampProbability, BASE_EVENT_PROBABILITIES, sampleWorld,
      sampleUserConfig, sampleGlobalConfig, min_def, max_def]
    decide
  refine ⟨rfl, rfl, ?_, ?_, rfl,
    branch_highlight_choice_forks sampleWorld EName.marry sampleGlobalConfig
      sampleUserConfig 0 0 defaultNameAllocator ⟨0⟩ [AllocOp.nextId]
      rfl rfl ?_ ?_ rfl⟩ <;>
    rw [hpv] <;> norm_num

/-- C10: the driver's branching probability is `event_probability` with no
layer index (its default); with a missing layer index the derived age
equals the configured age exactly, `_months_since` yields `None` for every
event name, and the resulting probability is completely independent of the
`event_history` metadata that the vacation-spacing and birth-spacing gates
would consult — so those gates never fire during a driver run. -/
theorem branch_probability_ignores_layer_history (e : EName)
    (w : WorldState) (g : GlobalConfig) (u : UserConfig) (n : String)
    (hist : List (String × Int)) :
    branchProbability e w g u = eventProbability e w g u none ∧
    ageAtLayer u none = (u.age : ℚ) ∧
    monthsSince w n none = none ∧
    eventProbability e (setEventHistory w hist) g u none
        = eventProbability e w g u none := by
  refine ⟨rfl, by simp [ageAtLayer], rfl, ?_⟩
  cases e <;> rfl
